import Mathlib

/-!
Verification of the Helios Task Orchestration and Resilience Engine.

Shallow embedding of the Python sources:
  - workflow_resilience.py  (WorkflowResilienceManager)
  - hybrid_ai_base.py       (TokenBudgetManager, BusinessRulesEngine, HybridAIBase gates)
  - autonomous_workflow.py  (AutonomousWorkflow 7-stage pipeline)

Modelling conventions:
  - Python floats are modelled as rationals; every numeric fact proved here
    involves only values and operations that are exact in both systems.
  - Wall-clock instants are rationals (seconds); sleeping is recorded in an
    explicit trace instead of elapsing real time.
  - Datetime timestamps stored in records do not influence control flow and are
    omitted from the embedded records.
  - Exceptions are modelled with Except; a raised exception carries its message.
-/

namespace WorkflowResilience

/-- Job status values of workflow_resilience.WorkflowJob.status
(pending, running, completed, failed, dlq). -/
inductive JobStatus
  | pending
  | running
  | completed
  | failed
  | dlq
deriving DecidableEq, Repr

/-- One entry of WorkflowJob.error_history: the attempt number (1-based, the
value of current_retries after the increment) and the stringified error. The
timestamp recorded by the source does not affect control flow and is omitted. -/
structure ErrorEntry where
  attempt : Nat
  error : String
deriving DecidableEq, Repr

/-- Embedding of workflow_resilience.WorkflowJob. The payload and the datetime
fields are irrelevant to control flow; payload and workflow_type are kept as
opaque strings. -/
structure WorkflowJob where
  job_id : String
  payload : String
  workflow_type : String
  max_retries : Nat
  current_retries : Nat
  error_history : List ErrorEntry
  status : JobStatus
deriving DecidableEq, Repr

/-- Behaviour of the durable DLQ sink during one publish: the publisher may be
absent (PUBSUB unavailable), the publish may raise, or it may succeed with a
message id. -/
inductive SinkBehavior
  | available
  | unavailable
  | writeFails
deriving DecidableEq, Repr

/-- Embedding of WorkflowResilienceManager._send_to_dlq: when the publisher is
absent it returns None; when the publish raises, the exception is caught inside
and None is returned; on success the message id is returned. In every case the
call returns normally to execute_with_resilience. -/
def sendToDlq (sink : SinkBehavior) (job : WorkflowJob) : Option String :=
  match sink with
  | .available => some job.job_id
  | .unavailable => none
  | .writeFails => none

/-- Outcome dictionary returned by execute_with_resilience. Keys absent from a
given return site are modelled as none. -/
structure Outcome (α : Type) where
  success : Bool
  job_id : String
  result : Option α
  error : Option String
  retry_count : Nat
  dlq_message_id : Option String
deriving DecidableEq, Repr

/-- Full observable result of one execute_with_resilience call: the returned
outcome, the final (mutated) job, the backoff sleeps issued in order, the
number of invocations of the unit of work, the number of _send_to_dlq calls,
and the message id the sink reported (if a DLQ write happened and succeeded). -/
structure RunResult (α : Type) where
  outcome : Outcome α
  job : WorkflowJob
  sleeps : List Nat
  attempts : Nat
  dlqCalls : Nat
  sinkMessageId : Option String
deriving DecidableEq, Repr

/-- Embedding of the while loop of execute_with_resilience. The unit of work is
a function from the invocation index (0-based) to a result or a raised error.
Fuel only bounds the recursion; the loop guard itself is the source guard
current_retries < max_retries, and the zero-fuel and guard-false branches both
return the post-loop fallback of the source. -/
def executeLoop {α : Type} (work : Nat → Except String α) (sink : SinkBehavior) :
    Nat → WorkflowJob → Nat → List Nat → RunResult α
  | 0, job, attempt, sleeps =>
    { outcome := { success := false, job_id := job.job_id, result := none,
                   error := some "Unexpected retry loop exit",
                   retry_count := job.current_retries, dlq_message_id := none }
      job := { job with status := .failed }
      sleeps := sleeps, attempts := attempt, dlqCalls := 0, sinkMessageId := none }
  | fuel + 1, job, attempt, sleeps =>
    if job.current_retries < job.max_retries then
      let job1 : WorkflowJob := { job with status := .running }
      match work attempt with
      | .ok v =>
        { outcome := { success := true, job_id := job1.job_id, result := some v,
                       error := none, retry_count := job1.current_retries,
                       dlq_message_id := none }
          job := { job1 with status := .completed }
          sleeps := sleeps, attempts := attempt + 1, dlqCalls := 0, sinkMessageId := none }
      | .error e =>
        let job2 : WorkflowJob :=
          { job1 with
            current_retries := job1.current_retries + 1
            error_history := job1.error_history ++
              [{ attempt := job1.current_retries + 1, error := e }] }
        if job2.max_retries ≤ job2.current_retries then
          let msgId := sendToDlq sink job2
          { outcome := { success := false, job_id := job2.job_id, result := none,
                         error := some "Job failed all retries and sent to DLQ",
                         retry_count := job2.current_retries,
                         dlq_message_id := some job2.job_id }
            job := { job2 with status := .dlq }
            sleeps := sleeps, attempts := attempt + 1, dlqCalls := 1, sinkMessageId := msgId }
        else
          let wait := min (2 ^ job2.current_retries) 60
          executeLoop work sink fuel job2 (attempt + 1) (sleeps ++ [wait])
    else
      { outcome := { success := false, job_id := job.job_id, result := none,
                     error := some "Unexpected retry loop exit",
                     retry_count := job.current_retries, dlq_message_id := none }
        job := { job with status := .failed }
        sleeps := sleeps, attempts := attempt, dlqCalls := 0, sinkMessageId := none }

/-- Embedding of WorkflowResilienceManager.execute_with_resilience. The fuel
max_retries - current_retries + 1 strictly dominates the number of loop
iterations, so the zero-fuel branch of executeLoop is never taken. -/
def execute_with_resilience {α : Type} (job : WorkflowJob)
    (work : Nat → Except String α) (sink : SinkBehavior) : RunResult α :=
  executeLoop work sink (job.max_retries - job.current_retries + 1) job 0 []

end WorkflowResilience

namespace HybridAI

/-- Embedding of hybrid_ai_base.AIModelType: the three capability tiers. -/
inductive AIModelType
  | gemini_2_5_flash_thinking
  | gemini_2_5_flash_lite
  | gemini_2_0_flash_lite
deriving DecidableEq, Repr

/-- Embedding of hybrid_ai_base.TaskComplexity ordinal values. -/
def TaskComplexity.basic : Int := 1

/-- Standard complexity ordinal. -/
def TaskComplexity.standard : Int := 5

/-- Strategic complexity ordinal. -/
def TaskComplexity.strategic : Int := 8

/-- Critical complexity ordinal. -/
def TaskComplexity.critical : Int := 10

/-- Embedding of hybrid_ai_base.TokenBudgetManager state: the per-tier daily
budgets, the per-tier usage counters, and the single shared reset timestamp
daily_reset_time (seconds, as produced by time.time()). -/
structure TokenBudgetManager where
  daily_budgets : AIModelType → ℚ
  current_usage : AIModelType → ℚ
  daily_reset_time : ℚ

/-- Embedding of TokenBudgetManager._has_budget: usage strictly below 90
percent of the daily budget. -/
def TokenBudgetManager.has_budget (m : TokenBudgetManager) (model : AIModelType) : Bool :=
  m.current_usage model < m.daily_budgets model * (9 / 10)

/-- The reset check at the top of TokenBudgetManager.select_model: if more than
86400 seconds have passed since daily_reset_time, zero every usage counter and
move daily_reset_time to now; otherwise leave the manager unchanged. -/
def TokenBudgetManager.resetIfDue (m : TokenBudgetManager) (now : ℚ) : TokenBudgetManager :=
  if 86400 < now - m.daily_reset_time then
    { m with current_usage := fun _ => 0, daily_reset_time := now }
  else m

/-- Embedding of TokenBudgetManager.select_model. The call happens at wall
time now; the manager resulting from the in-place reset (if due) is returned
along with the selected tier. -/
def TokenBudgetManager.select_model (m : TokenBudgetManager) (now : ℚ)
    (task_complexity : Int) (thinking_required : Bool) :
    AIModelType × TokenBudgetManager :=
  let m1 := m.resetIfDue now
  let tier :=
    if thinking_required && decide (8 ≤ task_complexity) &&
        m1.has_budget .gemini_2_5_flash_thinking then
      AIModelType.gemini_2_5_flash_thinking
    else if decide (5 ≤ task_complexity) && m1.has_budget .gemini_2_5_flash_lite then
      AIModelType.gemini_2_5_flash_lite
    else
      AIModelType.gemini_2_0_flash_lite
  (tier, m1)

/-- Embedding of TokenBudgetManager.record_usage: add tokens_used to the usage
counter of the given tier. The source body reads no clock at all; the now
argument records the wall time at which the call occurs and is (faithfully)
ignored. -/
def TokenBudgetManager.record_usage (m : TokenBudgetManager) (model : AIModelType)
    (tokens_used : ℚ) (now : ℚ) : TokenBudgetManager :=
  let _ := now
  { m with current_usage := fun mo =>
      if mo = model then m.current_usage mo + tokens_used else m.current_usage mo }

/-- Embedding of the validation result dictionary
(passed, violations, score). -/
structure ValidationResult where
  passed : Bool
  violations : List String
  score : ℚ
deriving DecidableEq, Repr

/-- Projection of the dynamic result dictionary onto the keys consulted by
BusinessRulesEngine; a missing key is none (dict.get default applies). -/
structure AIResult where
  opportunity_score : Option ℚ
  confidence_level : Option ℚ
  ethical_status : Option String
  copyright_status : Option String
  confidence_score : Option ℚ
  execution_time_ms : Option ℚ
deriving DecidableEq, Repr

/-- The trend_validation rule set built by _initialize_rules from the config
thresholds. -/
structure TrendRules where
  min_opportunity_score : ℚ
  min_audience_confidence : ℚ
  min_profit_margin : ℚ
deriving DecidableEq, Repr

/-- The quality_standards rule set built by _initialize_rules. -/
structure QualityRules where
  min_confidence_score : ℚ
  max_execution_time : ℚ
deriving DecidableEq, Repr

/-- Embedding of BusinessRulesEngine._validate_trend_data: one violation per
breached threshold (opportunity score, audience confidence), score
10 - 2 per violation floored at 0, passed iff no violations. Violation
strings elide the interpolated numeric values. -/
def _validate_trend_data (trend_data : AIResult) (rules : TrendRules) : ValidationResult :=
  let violations :=
    (if trend_data.opportunity_score.getD 0 < rules.min_opportunity_score then
      ["Opportunity score below minimum"] else []) ++
    (if trend_data.confidence_level.getD 0 < rules.min_audience_confidence then
      ["Confidence level below minimum"] else [])
  { passed := violations.length == 0
    violations := violations
    score := max 0 (10 - violations.length * 2) }

/-- Embedding of BusinessRulesEngine._validate_content_safety: start from 10,
subtract 5 for a failed ethical screen and 3 for unclear copyright, floor at 0. -/
def _validate_content_safety (content : AIResult) : ValidationResult :=
  let s1 : ℚ := 10
  let (v1, s2) :=
    if content.ethical_status ≠ some "approved" then
      (["Content failed ethical screening"], s1 - 5) else ([], s1)
  let (v2, s3) :=
    if content.copyright_status ≠ some "clear" then
      (v1 ++ ["Copyright status unclear"], s2 - 3) else (v1, s2)
  { passed := v2.length == 0, violations := v2, score := max 0 s3 }

/-- Embedding of BusinessRulesEngine._validate_quality_standards: subtract 3
for confidence below minimum and 2 for execution time over the limit, floor
at 0. -/
def _validate_quality_standards (result : AIResult) (rules : QualityRules) : ValidationResult :=
  let s1 : ℚ := 10
  let (v1, s2) :=
    if result.confidence_score.getD 0 < rules.min_confidence_score then
      (["Confidence score below minimum"], s1 - 3) else ([], s1)
  let (v2, s3) :=
    if rules.max_execution_time * 1000 < result.execution_time_ms.getD 0 then
      (v1 ++ ["Execution time exceeds maximum"], s2 - 2) else (v1, s2)
  { passed := v2.length == 0, violations := v2, score := max 0 s3 }

/-- Embedding of the rule sets held by BusinessRulesEngine. The content_safety
rule set carries only constant booleans in the source and takes no parameters
here. -/
structure BusinessRulesEngine where
  trend_rules : TrendRules
  quality_rules : QualityRules
deriving DecidableEq, Repr

/-- Embedding of BusinessRulesEngine.validate: dispatch on the rule-set name;
every name other than the three known ones yields the initial permissive
result (passed, no violations, score 0). -/
def BusinessRulesEngine.validate (e : BusinessRulesEngine) (ai_result : AIResult)
    (rule_set : String) : ValidationResult :=
  if rule_set = "trend_validation" then
    _validate_trend_data ai_result e.trend_rules
  else if rule_set = "content_safety" then
    _validate_content_safety ai_result
  else if rule_set = "quality_standards" then
    _validate_quality_standards ai_result e.quality_rules
  else
    { passed := true, violations := [], score := 0 }

end HybridAI

namespace HybridAI

/-- Embedding of one quality gate entry
(passed, score, threshold). -/
structure QualityGate where
  passed : Bool
  score : ℚ
  threshold : ℚ
deriving DecidableEq, Repr

/-- Embedding of HybridAIBase._apply_quality_gates. The gate dictionary is
modelled as an association list in insertion order. The inputs
confidence_score and execution_time are the attributes read off the AI result
(getattr defaults 0.0 and 0 are applied by the caller of this embedding);
max_execution_time is the config limit in seconds. -/
def _apply_quality_gates (validation : ValidationResult) (confidence_score : ℚ)
    (execution_time : ℚ) (max_execution_time : ℚ) : List (String × QualityGate) :=
  [("business_rules",
    { passed := validation.passed, score := validation.score, threshold := 7 }),
   ("confidence",
    { passed := decide (7 ≤ confidence_score), score := confidence_score, threshold := 7 }),
   ("execution_time",
    { passed := decide (execution_time ≤ max_execution_time * 1000)
      score := max 0 (10 - (execution_time / 1000) / 30)
      threshold := 7 })]

/-- Embedding of HybridAIBase._calculate_confidence_score: collect the AI
self-reported confidence (when the attribute exists), the validation score and
every gate score, and return their arithmetic mean (0 when the list is empty). -/
def _calculate_confidence_score (ai_confidence : Option ℚ) (validation : ValidationResult)
    (quality_gates : List (String × QualityGate)) : ℚ :=
  let scores := ai_confidence.toList ++ [validation.score] ++
    quality_gates.map (fun g => g.2.score)
  if scores.length = 0 then 0 else scores.sum / scores.length

/-- Gate composition followed by confidence aggregation, with the AI result
self-reporting the given confidence: the composeGates plus aggregateConfidence
path of the spec, exactly as wired in process_hybrid_task steps 5 and 6. -/
def composeAndAggregate (validation : ValidationResult) (selfReportedConfidence : ℚ)
    (executionTimeMs : ℚ) (maxExecutionSeconds : ℚ) : ℚ :=
  _calculate_confidence_score (some selfReportedConfidence) validation
    (_apply_quality_gates validation selfReportedConfidence executionTimeMs maxExecutionSeconds)

end HybridAI

namespace AutonomousPipeline

/-- Workflow configuration of AutonomousWorkflow: max_retries. -/
def max_retries : Nat := 3

/-- Workflow configuration of AutonomousWorkflow: the fixed inter-attempt
delay in seconds. -/
def retry_delay : Nat := 5

/-- Embedding of one stage attempt: the attempt either raises (error message)
or returns a value whose Python truthiness is the carried Bool. Stage payloads
influence later control flow only through exceptions and truthiness, so the
payload itself is abstracted away. -/
def Attempt : Type := Nat → Except String Bool

/-- Embedding of the per-stage retry loop shared by the _with_retry helpers of
AutonomousWorkflow: for attempt in range(max_retries), return the attempt
result on success; on an exception sleep retry_delay and continue unless this
was the last attempt, in which case the exception is re-raised. Returns the
outcome and the total seconds slept. The zero-fuel branch mirrors the
unreachable return None after the loop. -/
def runStageLoop (att : Attempt) : Nat → Nat → Except String Bool × Nat
  | 0, _ => (Except.error "loop exhausted", 0)
  | fuel + 1, attempt =>
    match att attempt with
    | .ok v => (.ok v, 0)
    | .error e =>
      if attempt < max_retries - 1 then
        let r := runStageLoop att fuel (attempt + 1)
        (r.1, r.2 + retry_delay)
      else
        (.error e, 0)

/-- One full retried stage execution, starting at attempt 0. -/
def runStage (att : Attempt) : Except String Bool × Nat :=
  runStageLoop att max_retries 0

/-- The orchestrator-level falsy-check messages raised after each retried
stage (if not X: raise ValueError(...)). -/
def falsyMessage : Nat → String
  | 0 => "Failed to discover trends"
  | 1 => "Failed to generate design concept"
  | 2 => "Failed to select product"
  | 3 => "Failed to generate image"
  | 4 => "Failed to generate marketing copy"
  | _ => "Failed to publish product"

/-- Embedding of the WorkflowResult record: success, the errors list and the
elapsed wall-clock time. Time is modelled as the seconds spent in retry
sleeps (stage attempts themselves take zero modelled time). -/
structure WorkflowResult where
  success : Bool
  errors : List String
  execution_time : Nat
deriving DecidableEq, Repr

/-- Embedding of the body of run_autonomous_workflow over the six retried
stages (indices 0 to 5), threading the modelled clock and the trace of stage
indices entered. Any exception (a stage re-raise or a falsy-check ValueError)
is caught by the top-level handler, which records the wrapped message and
returns success false. After stage 5 the log stage (index 6) runs with its
exceptions swallowed, and the run succeeds. -/
def runStagesFrom (env : Nat → Attempt) :
    List Nat → Nat → List Nat → WorkflowResult × List Nat
  | [], clock, trace =>
    ({ success := true, errors := [], execution_time := clock }, trace ++ [6])
  | i :: rest, clock, trace =>
    let r := runStage (env i)
    let clock1 := clock + r.2
    let trace1 := trace ++ [i]
    match r.1 with
    | .error e =>
      ({ success := false, errors := ["Workflow failed: " ++ e],
         execution_time := clock1 }, trace1)
    | .ok v =>
      if v then
        runStagesFrom env rest clock1 trace1
      else
        ({ success := false, errors := ["Workflow failed: " ++ falsyMessage i],
           execution_time := clock1 }, trace1)

/-- Embedding of AutonomousWorkflow.run_autonomous_workflow: the seven-stage
pipeline (discover, design, select-product, image, copy, publish, log) with the
six retried stages run in order. -/
def run_autonomous_workflow (env : Nat → Attempt) : WorkflowResult × List Nat :=
  runStagesFrom env [0, 1, 2, 3, 4, 5] 0 []

end AutonomousPipeline

namespace WorkflowResilience

/-- Everything a run reports except the sink message id. -/
def RunResult.sinkErased {α : Type} (r : RunResult α) : RunResult α :=
  { r with sinkMessageId := none }

theorem executeLoop_sink_indep {α : Type} (work : Nat → Except String α)
    (s s' : SinkBehavior) :
    ∀ fuel job attempt sleeps,
      (executeLoop work s fuel job attempt sleeps).sinkErased =
        (executeLoop work s' fuel job attempt sleeps).sinkErased := by
  intro fuel
  induction fuel with
  | zero => intro job attempt sleeps; rfl
  | succ f ih =>
    intro job attempt sleeps
    simp only [executeLoop]
    by_cases hg : job.current_retries < job.max_retries
    · simp only [hg, if_true]
      cases hwa : work attempt with
      | ok v => rfl
      | error e =>
        by_cases hd : job.max_retries ≤ job.current_retries + 1
        · simp only [hd, if_true]; rfl
        · simp only [hd, if_false]
          exact ih _ _ _
    · simp only [hg, if_false]

theorem executeLoop_allFail_dlq {α : Type} (work : Nat → Except String α)
    (errs : Nat → String) (hw : ∀ n, work n = Except.error (errs n))
    (sink : SinkBehavior) :
    ∀ fuel job attempt sleeps, job.current_retries < job.max_retries →
      job.max_retries - job.current_retries ≤ fuel →
      (executeLoop work sink fuel job attempt sleeps).job.status = JobStatus.dlq ∧
      (executeLoop work sink fuel job attempt sleeps).outcome.success = false ∧
      (executeLoop work sink fuel job attempt sleeps).outcome.retry_count =
        job.max_retries ∧
      (executeLoop work sink fuel job attempt sleeps).dlqCalls = 1 := by
  intro fuel
  induction fuel with
  | zero => intro job attempt sleeps h1 h2; omega
  | succ f ih =>
    intro job attempt sleeps h1 h2
    simp only [executeLoop, h1, if_true, hw]
    by_cases hd : job.max_retries ≤ job.current_retries + 1
    · simp only [hd, if_true, true_and, and_true]
      omega
    · simp only [hd, if_false]
      refine ih _ (attempt + 1) _ ?_ ?_
      · show job.current_retries + 1 < job.max_retries
        omega
      · show job.max_retries - (job.current_retries + 1) ≤ f
        omega

/-- C1: a job entering execute_with_resilience with max_retries 3,
current_retries 0 and an empty error_history, given a unit of work that fails
on every invocation, has its unit of work invoked exactly 3 times, ends with
exactly 3 error_history entries in attempt order, has final status dlq, and
the returned outcome has success false and retry_count 3; the backoff waits
before the 2nd and 3rd attempts are min(2 pow current_retries, 60), namely
2 then 4 seconds. -/
theorem c1_always_failing_job_goes_to_dlq {α : Type}
    (id payload wt : String) (st : JobStatus)
    (work : Nat → Except String α) (errs : Nat → String)
    (hw : ∀ n, work n = Except.error (errs n)) (sink : SinkBehavior) :
    let r := execute_with_resilience
      { job_id := id, payload := payload, workflow_type := wt,
        max_retries := 3, current_retries := 0, error_history := [], status := st }
      work sink
    r.attempts = 3 ∧
    r.job.error_history =
      [{ attempt := 1, error := errs 0 }, { attempt := 2, error := errs 1 },
       { attempt := 3, error := errs 2 }] ∧
    r.job.status = JobStatus.dlq ∧
    r.outcome.success = false ∧
    r.outcome.retry_count = 3 ∧
    r.sleeps = [min (2 ^ 1) 60, min (2 ^ 2) 60] ∧
    r.sleeps = [2, 4] := by
  intro r
  simp only [execute_with_resilience, r]
  norm_num [executeLoop, hw]

/-- Concrete always-failing unit of work used by the witnesses. -/
def alwaysFailWork : Nat → Except String Unit := fun _ => Except.error "boom"

/-- Concrete fresh job used by the witnesses. -/
def witnessJob : WorkflowJob :=
  { job_id := "job-1", payload := "payload", workflow_type := "product"
    max_retries := 3, current_retries := 0, error_history := [], status := .pending }

/-- Witness for C1 at a concrete job, unit of work and sink. -/
theorem c1_always_failing_job_goes_to_dlq_witness :
    ((execute_with_resilience
        { job_id := "job-1", payload := "payload", workflow_type := "product",
          max_retries := 3, current_retries := 0, error_history := [],
          status := .pending } alwaysFailWork .available).attempts = 3 ∧
     (execute_with_resilience
        { job_id := "job-1", payload := "payload", workflow_type := "product",
          max_retries := 3, current_retries := 0, error_history := [],
          status := .pending } alwaysFailWork .available).job.error_history =
       [{ attempt := 1, error := "boom" }, { attempt := 2, error := "boom" },
        { attempt := 3, error := "boom" }] ∧
     (execute_with_resilience
        { job_id := "job-1", payload := "payload", workflow_type := "product",
          max_retries := 3, current_retries := 0, error_history := [],
          status := .pending } alwaysFailWork .available).job.status = JobStatus.dlq ∧
     (execute_with_resilience
        { job_id := "job-1", payload := "payload", workflow_type := "product",
          max_retries := 3, current_retries := 0, error_history := [],
          status := .pending } alwaysFailWork .available).outcome.success = false ∧
     (execute_with_resilience
        { job_id := "job-1", payload := "payload", workflow_type := "product",
          max_retries := 3, current_retries := 0, error_history := [],
          status := .pending } alwaysFailWork .available).outcome.retry_count = 3 ∧
     (execute_with_resilience
        { job_id := "job-1", payload := "payload", workflow_type := "product",
          max_retries := 3, current_retries := 0, error_history := [],
          status := .pending } alwaysFailWork .available).sleeps =
       [min (2 ^ 1) 60, min (2 ^ 2) 60] ∧
     (execute_with_resilience
        { job_id := "job-1", payload := "payload", workflow_type := "product",
          max_retries := 3, current_retries := 0, error_history := [],
          status := .pending } alwaysFailWork .available).sleeps = [2, 4]) :=
  c1_always_failing_job_goes_to_dlq "job-1" "payload" "product" .pending
    alwaysFailWork (fun _ => "boom") (fun _ => rfl) .available

end WorkflowResilience

namespace WorkflowResilience

theorem RunResult.components_of_sinkErased_eq {α : Type} {r r' : RunResult α}
    (h : r.sinkErased = r'.sinkErased) :
    r.outcome = r'.outcome ∧ r.job = r'.job ∧ r.sleeps = r'.sleeps ∧
    r.attempts = r'.attempts ∧ r.dlqCalls = r'.dlqCalls := by
  cases r
  cases r'
  simp only [RunResult.sinkErased, RunResult.mk.injEq] at h
  exact ⟨h.1, h.2.1, h.2.2.1, h.2.2.2.1, h.2.2.2.2.1⟩

/-- C8: when a job whose retries are not yet exhausted runs a unit of work
that fails on every invocation, the run ends in status dlq with success false
and retry_count equal to max_retries, and the returned outcome, final job,
sleeps and attempt count are identical for every sink behaviour (available,
unavailable, or a publish that raises): the sink failure is swallowed and
never re-raised. -/
theorem c8_sink_failure_swallowed {α : Type} (job : WorkflowJob)
    (work : Nat → Except String α) (errs : Nat → String)
    (hw : ∀ n, work n = Except.error (errs n))
    (h : job.current_retries < job.max_retries) (s s' : SinkBehavior) :
    (execute_with_resilience job work s).outcome =
      (execute_with_resilience job work s').outcome ∧
    (execute_with_resilience job work s).job =
      (execute_with_resilience job work s').job ∧
    (execute_with_resilience job work s).sleeps =
      (execute_with_resilience job work s').sleeps ∧
    (execute_with_resilience job work s).attempts =
      (execute_with_resilience job work s').attempts ∧
    (execute_with_resilience job work s).job.status = JobStatus.dlq ∧
    (execute_with_resilience job work s).outcome.success = false ∧
    (execute_with_resilience job work s).outcome.retry_count = job.max_retries := by
  have hind := executeLoop_sink_indep work s s'
    (job.max_retries - job.current_retries + 1) job 0 []
  have hfail := executeLoop_allFail_dlq work errs hw s
    (job.max_retries - job.current_retries + 1) job 0 [] h (by omega)
  have hc := RunResult.components_of_sinkErased_eq hind
  exact ⟨hc.1, hc.2.1, hc.2.2.1, hc.2.2.2.1, hfail.1, hfail.2.1, hfail.2.2.1⟩

/-- Witness for C8 at a concrete job, a failing publish versus an available
sink. -/
theorem c8_sink_failure_swallowed_witness :
    witnessJob.current_retries < witnessJob.max_retries ∧
    ((execute_with_resilience witnessJob alwaysFailWork .writeFails).outcome =
       (execute_with_resilience witnessJob alwaysFailWork .available).outcome ∧
     (execute_with_resilience witnessJob alwaysFailWork .writeFails).job =
       (execute_with_resilience witnessJob alwaysFailWork .available).job ∧
     (execute_with_resilience witnessJob alwaysFailWork .writeFails).sleeps =
       (execute_with_resilience witnessJob alwaysFailWork .available).sleeps ∧
     (execute_with_resilience witnessJob alwaysFailWork .writeFails).attempts =
       (execute_with_resilience witnessJob alwaysFailWork .available).attempts ∧
     (execute_with_resilience witnessJob alwaysFailWork .writeFails).job.status =
       JobStatus.dlq ∧
     (execute_with_resilience witnessJob alwaysFailWork .writeFails).outcome.success =
       false ∧
     (execute_with_resilience witnessJob alwaysFailWork .writeFails).outcome.retry_count =
       witnessJob.max_retries) :=
  ⟨by decide,
   c8_sink_failure_swallowed witnessJob alwaysFailWork (fun _ => "boom")
     (fun _ => rfl) (by decide) .writeFails .available⟩

/-- C10: a job entering execute_with_resilience with current_retries at or
above max_retries (for instance max_retries 0) never invokes the unit of work,
writes no dead-letter record, and returns success false with the job status
set to failed and retry_count equal to the entering current_retries. -/
theorem c10_already_exhausted_job_fails {α : Type} (job : WorkflowJob)
    (work : Nat → Except String α) (sink : SinkBehavior)
    (h : job.max_retries ≤ job.current_retries) :
    let r := execute_with_resilience job work sink
    r.attempts = 0 ∧ r.dlqCalls = 0 ∧ r.outcome.success = false ∧
    r.job.status = JobStatus.failed ∧
    r.outcome.retry_count = job.current_retries := by
  intro r
  have hf : job.max_retries - job.current_retries = 0 := Nat.sub_eq_zero_of_le h
  simp only [execute_with_resilience, hf, r]
  simp [executeLoop, show ¬(job.current_retries < job.max_retries) by omega]

/-- Concrete job with zero allowed retries, used by the C10 witness. -/
def witnessJobZero : WorkflowJob :=
  { job_id := "job-0", payload := "payload", workflow_type := "product"
    max_retries := 0, current_retries := 0, error_history := [], status := .pending }

/-- Witness for C10 at a concrete job with max_retries 0. -/
theorem c10_already_exhausted_job_fails_witness :
    witnessJobZero.max_retries ≤ witnessJobZero.current_retries ∧
    ((execute_with_resilience witnessJobZero alwaysFailWork .available).attempts = 0 ∧
     (execute_with_resilience witnessJobZero alwaysFailWork .available).dlqCalls = 0 ∧
     (execute_with_resilience witnessJobZero alwaysFailWork .available).outcome.success =
       false ∧
     (execute_with_resilience witnessJobZero alwaysFailWork .available).job.status =
       JobStatus.failed ∧
     (execute_with_resilience witnessJobZero alwaysFailWork .available).outcome.retry_count =
       witnessJobZero.current_retries) :=
  ⟨by decide,
   c10_already_exhausted_job_fails witnessJobZero alwaysFailWork .available (by decide)⟩

end WorkflowResilience

namespace HybridAI

/-- Concrete daily budgets used by the C2 counterexample (the source defaults:
thinking budget from config, 1M and 2M tokens per day). -/
def cexBudgets : AIModelType → ℚ
  | .gemini_2_5_flash_thinking => 32768
  | .gemini_2_5_flash_lite => 1000000
  | .gemini_2_0_flash_lite => 2000000

/-- Concrete usage counters used by the C2 counterexample. -/
def cexUsage : AIModelType → ℚ
  | .gemini_2_5_flash_thinking => 0
  | .gemini_2_5_flash_lite => 500
  | .gemini_2_0_flash_lite => 0

/-- Concrete manager whose last (and only) reset happened at time 0. -/
def cexManager : TokenBudgetManager :=
  { daily_budgets := cexBudgets, current_usage := cexUsage, daily_reset_time := 0 }

/-- C2 counterexample: a record_usage call that occurs 90000 seconds (more
than 24 hours) after the last reset of the standard tier does not reset that
tier: the counter becomes 510, not the 10 the claim requires, and the reset
timestamp does not move. record_usage never consults the clock, so no
record_usage call ever starts a budget window. -/
theorem c2_counterexample_record_usage_never_resets :
    86400 < (90000 : ℚ) - cexManager.daily_reset_time ∧
    (cexManager.record_usage .gemini_2_5_flash_lite 10 90000).current_usage
      .gemini_2_5_flash_lite = 510 ∧
    (cexManager.record_usage .gemini_2_5_flash_lite 10 90000).daily_reset_time =
      cexManager.daily_reset_time ∧
    (510 : ℚ) ≠ 10 := by
  refine ⟨by norm_num [cexManager], ?_, rfl, by norm_num⟩
  norm_num [cexManager, TokenBudgetManager.record_usage, cexUsage]

/-- C2 amended: the budget window is global, not per tier, and only
select_model starts a new one. A select_model call more than 24 hours after
daily_reset_time zeroes every usage counter at once and moves the shared
timestamp to now; otherwise it changes nothing. record_usage adds to exactly
the recorded tier and never touches any counter of another tier or the reset
timestamp, regardless of the wall time of the call. -/
theorem c2_amended_global_reset_select_only (m : TokenBudgetManager) (now : ℚ)
    (c : Int) (t : Bool) (mo model : AIModelType) (tokens nowR : ℚ) :
    ((m.select_model now c t).2.current_usage mo =
      if 86400 < now - m.daily_reset_time then 0 else m.current_usage mo) ∧
    ((m.select_model now c t).2.daily_reset_time =
      if 86400 < now - m.daily_reset_time then now else m.daily_reset_time) ∧
    (m.record_usage model tokens nowR).daily_reset_time = m.daily_reset_time ∧
    (m.record_usage model tokens nowR).current_usage mo =
      m.current_usage mo + (if mo = model then tokens else 0) := by
  refine ⟨?_, ?_, rfl, ?_⟩
  · simp only [TokenBudgetManager.select_model, TokenBudgetManager.resetIfDue]
    split <;> rfl
  · simp only [TokenBudgetManager.select_model, TokenBudgetManager.resetIfDue]
    split <;> rfl
  · simp only [TokenBudgetManager.record_usage]
    split <;> simp

/-- C3: select_model returns the deep-reasoning tier iff thinking is
requested, the complexity is at least strategic (8) and the deep tier is under
its 90 percent threshold (after the reset check); otherwise the standard tier
iff complexity is at least standard (5) and the standard tier is under its
threshold; otherwise the lite tier, which is never budget-gated. In
particular, a basic-complexity call without deep reasoning always returns the
lite tier. -/
theorem c3_select_model_tier_selection (m : TokenBudgetManager) (now : ℚ)
    (c : Int) (t : Bool) :
    ((m.select_model now c t).1 = AIModelType.gemini_2_5_flash_thinking ↔
      t = true ∧ 8 ≤ c ∧
        (m.resetIfDue now).has_budget .gemini_2_5_flash_thinking = true) ∧
    ((m.select_model now c t).1 = AIModelType.gemini_2_5_flash_lite ↔
      ¬(t = true ∧ 8 ≤ c ∧
          (m.resetIfDue now).has_budget .gemini_2_5_flash_thinking = true) ∧
      5 ≤ c ∧ (m.resetIfDue now).has_budget .gemini_2_5_flash_lite = true) ∧
    ((m.select_model now c t).1 = AIModelType.gemini_2_0_flash_lite ↔
      ¬(t = true ∧ 8 ≤ c ∧
          (m.resetIfDue now).has_budget .gemini_2_5_flash_thinking = true) ∧
      ¬(5 ≤ c ∧ (m.resetIfDue now).has_budget .gemini_2_5_flash_lite = true)) ∧
    (m.select_model now TaskComplexity.basic false).1 =
      AIModelType.gemini_2_0_flash_lite := by
  simp only [TokenBudgetManager.select_model, TaskComplexity.basic]
  cases t <;>
    by_cases h8 : 8 ≤ c <;>
    by_cases hb1 : (m.resetIfDue now).has_budget .gemini_2_5_flash_thinking = true <;>
    by_cases h5 : 5 ≤ c <;>
    by_cases hb2 : (m.resetIfDue now).has_budget .gemini_2_5_flash_lite = true <;>
    simp_all <;>
    (try (split_ifs <;> simp_all)) <;>
    (try omega)

end HybridAI

namespace HybridAI

/-- C6: validating any result under the trend_validation rule set yields a
score of exactly max(0, 10 - 2n) where n is the number of violations produced,
and passed holds iff there are no violations. -/
theorem c6_trend_validation_scoring (e : BusinessRulesEngine) (data : AIResult) :
    (e.validate data "trend_validation").score =
      max 0 (10 - 2 * ((e.validate data "trend_validation").violations.length : ℚ)) ∧
    ((e.validate data "trend_validation").passed = true ↔
      (e.validate data "trend_validation").violations.length = 0) := by
  have hd : e.validate data "trend_validation" = _validate_trend_data data e.trend_rules := by
    simp [BusinessRulesEngine.validate]
  rw [hd]
  unfold _validate_trend_data
  constructor
  · dsimp only
    rw [mul_comm]
  · dsimp only
    simp

/-- C9: validating any result under a rule-set name other than
trend_validation, content_safety and quality_standards returns the permissive
default: passed with an empty violations list (and score 0). -/
theorem c9_unknown_rule_set_permissive (e : BusinessRulesEngine) (data : AIResult)
    (rule_set : String)
    (h1 : rule_set ≠ "trend_validation")
    (h2 : rule_set ≠ "content_safety")
    (h3 : rule_set ≠ "quality_standards") :
    e.validate data rule_set =
      { passed := true, violations := [], score := 0 } := by
  simp [BusinessRulesEngine.validate, h1, h2, h3]

/-- Witness for C9 at a concrete engine, result and unknown rule-set name. -/
theorem c9_unknown_rule_set_permissive_witness :
    ("image_safety" : String) ≠ "trend_validation" ∧
    ("image_safety" : String) ≠ "content_safety" ∧
    ("image_safety" : String) ≠ "quality_standards" ∧
    ({ trend_rules := { min_opportunity_score := 5, min_audience_confidence := 7/10,
                        min_profit_margin := 3/10 },
       quality_rules := { min_confidence_score := 7, max_execution_time := 300 } }
        : BusinessRulesEngine).validate
      { opportunity_score := none, confidence_level := none, ethical_status := none,
        copyright_status := none, confidence_score := none, execution_time_ms := none }
      "image_safety" =
      { passed := true, violations := [], score := 0 } :=
  ⟨by decide, by decide, by decide,
   c9_unknown_rule_set_permissive _ _ "image_safety" (by decide) (by decide) (by decide)⟩

end HybridAI

namespace HybridAI

/-- C5 counterexample: with a 300-second limit, an execution time of 30000 ms
is well under the limit (the gate passes), yet the execution_time gate score
is 9, not the 10 the claim requires for every time at or under the limit: the
score starts degrading at time zero, not at the limit. -/
theorem c5_counterexample_score_degrades_before_limit :
    (30000 : ℚ) ≤ 300 * 1000 ∧
    ((_apply_quality_gates { passed := true, violations := [], score := 10 } 8 30000 300).lookup
      "execution_time" = some { passed := true, score := 9, threshold := 7 }) ∧
    (9 : ℚ) ≠ 10 := by
  refine ⟨by norm_num, ?_, by norm_num⟩
  norm_num [_apply_quality_gates, List.lookup]
  rfl

/-- C5 amended: gate composition produces exactly the three gates
business_rules, confidence and execution_time, in that order; the
execution_time gate passes iff executionTimeMs is at most
maxExecutionSeconds times 1000, and its score is max(0, 10 - t/30000) for
every execution time t, independent of the limit: it degrades linearly from
time zero (10 at t = 0, reaching the floor 0 at t = 300000 ms), not only past
the limit. -/
theorem c5_amended_three_gates_linear_score (validation : ValidationResult)
    (cs t ms : ℚ) :
    _apply_quality_gates validation cs t ms =
      [("business_rules",
        { passed := validation.passed, score := validation.score, threshold := 7 }),
       ("confidence",
        { passed := decide (7 ≤ cs), score := cs, threshold := 7 }),
       ("execution_time",
        { passed := decide (t ≤ ms * 1000), score := max 0 (10 - t / 30000),
          threshold := 7 })] := by
  simp only [_apply_quality_gates, div_div]
  norm_num

/-- C4 counterexample: with selfReportedConfidence 8, a passing validation of
score 10, and an execution time of 0 ms (under the 300-second limit), the
aggregate is (8 + 10 + 10 + 8 + 10) / 5 = 46/5 = 9.2, not the 9.6 claimed:
the confidence gate score is the self-reported 8, not 10. -/
theorem c4_counterexample_aggregate_is_9_2 :
    (0 : ℚ) ≤ 300 * 1000 ∧
    composeAndAggregate { passed := true, violations := [], score := 10 } 8 0 300 = 46 / 5 ∧
    (46 / 5 : ℚ) ≠ (8 + 10 + 10 + 10 + 10) / 5 := by
  refine ⟨by norm_num, ?_, by norm_num⟩
  simp [composeAndAggregate, _calculate_confidence_score, _apply_quality_gates]
  norm_num

/-- C4 amended: the aggregate confidence is the unweighted mean of the five
component scores, but the components are the self-reported confidence, the
validation score, the business_rules gate score (again the validation score),
the confidence gate score (again the self-reported confidence) and the
execution_time gate score max(0, 10 - t/30000); with confidence 8, a passing
validation of score 10 and t = 0 this mean is 46/5 = 9.2. -/
theorem c4_amended_aggregate_mean (validation : ValidationResult) (cs t ms : ℚ) :
    composeAndAggregate validation cs t ms =
      (cs + validation.score + validation.score + cs + max 0 (10 - t / 30000)) / 5 := by
  simp [composeAndAggregate, _calculate_confidence_score, _apply_quality_gates, div_div]
  ring_nf

end HybridAI

namespace AutonomousPipeline

theorem runStage_allFail (att : Attempt) (errs : Nat → String)
    (h : ∀ k, k < 3 → att k = Except.error (errs k)) :
    runStage att = (Except.error (errs 2), 10) := by
  have h0 := h 0 (by norm_num)
  have h1 := h 1 (by norm_num)
  have h2 := h 2 (by norm_num)
  simp [runStage, runStageLoop, max_retries, retry_delay, h0, h1, h2]

/-- C7: in any pipeline run where the first three stages succeed with truthy
results and stage 4 (generate-image, index 3) fails on all of its 3 attempts,
the run result has success false, its errors list holds exactly the wrapped
stage-4 error (the last attempt error), the recorded elapsed time is the
stage 1 to 3 retry sleep time plus the 10 seconds of the two 5-second delays
inside stage 4, and stages 5 to 7 (indices 4, 5, 6) never execute: the trace
of entered stages is exactly [0, 1, 2, 3]. -/
theorem c7_stage4_exhaustion_aborts_run (env : Nat → Attempt) (errs : Nat → String)
    (h123 : ∀ i, i < 3 → (runStage (env i)).1 = Except.ok true)
    (h4 : ∀ k, k < 3 → env 3 k = Except.error (errs k)) :
    (run_autonomous_workflow env).1.success = false ∧
    (run_autonomous_workflow env).1.errors = ["Workflow failed: " ++ errs 2] ∧
    (run_autonomous_workflow env).1.execution_time =
      (runStage (env 0)).2 + (runStage (env 1)).2 + (runStage (env 2)).2 + 10 ∧
    (run_autonomous_workflow env).2 = [0, 1, 2, 3] := by
  have e3 := runStage_allFail (env 3) errs h4
  rcases hr0 : runStage (env 0) with ⟨r0, s0⟩
  rcases hr1 : runStage (env 1) with ⟨r1, s1⟩
  rcases hr2 : runStage (env 2) with ⟨r2, s2⟩
  have v0 : r0 = Except.ok true := by have := h123 0 (by norm_num); rwa [hr0] at this
  have v1 : r1 = Except.ok true := by have := h123 1 (by norm_num); rwa [hr1] at this
  have v2 : r2 = Except.ok true := by have := h123 2 (by norm_num); rwa [hr2] at this
  subst v0 v1 v2
  simp [run_autonomous_workflow, runStagesFrom, hr0, hr1, hr2, e3]

/-- Concrete stage environment for the C7 witness: stages 1 to 3 succeed
immediately; stage 4 raises on every attempt. -/
def witnessEnv : Nat → Attempt := fun i _ =>
  if i = 3 then Except.error "image generation failed" else Except.ok true

/-- Witness for C7 at the concrete environment. -/
theorem c7_stage4_exhaustion_aborts_run_witness :
    (run_autonomous_workflow witnessEnv).1.success = false ∧
    (run_autonomous_workflow witnessEnv).1.errors =
      ["Workflow failed: " ++ "image generation failed"] ∧
    (run_autonomous_workflow witnessEnv).1.execution_time =
      (runStage (witnessEnv 0)).2 + (runStage (witnessEnv 1)).2 +
        (runStage (witnessEnv 2)).2 + 10 ∧
    (run_autonomous_workflow witnessEnv).2 = [0, 1, 2, 3] :=
  c7_stage4_exhaustion_aborts_run witnessEnv (fun _ => "image generation failed")
    (by intro i hi; interval_cases i <;> rfl) (fun k _ => rfl)

end AutonomousPipeline
